import Mathlib

/-!
# Verification of the Baltimore Geocoder core (`src/balt_geocoder/geocoder.py`)

Shallow embedding of the geocoder's data model and operations:

* address normalization (`_standardize_address`),
* result normalization (`get_geocode_result`),
* the accuracy-guarded cache merge (`update_cached_geo`),
* the provider call with credential rotation and the two nested retry
  layers (`error_check`, `_geocode` / `_reverse_geocode`),
* the public `geocode` / `reverse_geocode` operations.

Modelling conventions:

* Python floats (latitude, longitude, accuracy) are embedded as `ℚ`; the
  program only compares, rounds, and stores them, and `ℚ` is faithful to the
  ordering of distinct float values.
* Python dicts that the code probes with `.get` are embedded as structures of
  `Option` fields (key absent ↔ `none`); a dict's truthiness is "at least one
  key present".  Dicts whose values are only tested for presence are embedded
  as association lists.
* String functions (`upper`, `replace`, the anchored `re.sub` patterns,
  `startswith`) are re-implemented over `List Char` with Python's semantics
  on ASCII input (the domain of every address this program handles).
* Exceptions become `Except` / explicit result constructors; the tenacity
  retry decorators become explicit loops (outer: 5 attempts on
  `RuntimeError`/`json.JSONDecodeError`; inner: unbounded on `APIRetryError`,
  terminating because every `APIRetryError` advances the credential index).
-/

namespace BaltGeocoder

/-- Python `str.upper` restricted to ASCII, applied characterwise. -/
def pyUpper (s : List Char) : List Char := s.map Char.toUpper

/-- `pat` is a prefix of `s` (Python `str.startswith`). -/
def startsWithL : List Char → List Char → Bool
  | [], _ => true
  | _ :: _, [] => false
  | p :: ps, c :: cs => p == c && startsWithL ps cs

/-- Fuelled worker for `replaceL`.  The fuel only bounds the recursion depth
(structural recursion keeps the definition kernel-reducible); with
`fuel ≥ s.length` and a nonempty pattern the fuel never runs out, because each
step consumes at least one character of `s`. -/
def replaceF (pat rep : List Char) : Nat → List Char → List Char
  | 0, s => s
  | _, [] => []
  | fuel + 1, c :: rest =>
    if startsWithL pat (c :: rest) && !pat.isEmpty then
      rep ++ replaceF pat rep fuel (List.drop pat.length (c :: rest))
    else
      c :: replaceF pat rep fuel rest

/-- Python `str.replace`: replace every non-overlapping occurrence of `pat`
by `rep`, scanning left to right.  (All patterns used by the program are
nonempty; for an empty `pat` this embedding leaves the string unchanged.) -/
def replaceL (pat rep s : List Char) : List Char :=
  replaceF pat rep s.length s

/-- One anchored substitution `re.sub(r'^(\d*) D\.? (.*)', r'\1 WORD \2', s)`
for a single directional letter `d` expanded to `word`.  The greedy `\d*`
must stop exactly at the first non-digit (a literal space follows it in the
pattern), the optional `\.` consumes a dot only when a space follows, and
`(.*)` together with the untouched remainder reproduces the rest of the
string unchanged. -/
def expandDir (d : Char) (word : List Char) (s : List Char) : List Char :=
  let digits := s.takeWhile Char.isDigit
  let rest := s.dropWhile Char.isDigit
  match rest with
  | ' ' :: c :: '.' :: ' ' :: tail =>
    if c = d then digits ++ ' ' :: (word ++ ' ' :: tail) else s
  | ' ' :: c :: ' ' :: tail =>
    if c = d then digits ++ ' ' :: (word ++ ' ' :: tail) else s
  | _ => s

/-- Embedding of `Geocoder._standardize_address`: uppercase, drop block
qualifiers, alias the Jones Falls expressway to I-83, expand the truncated
highway abbreviation, and expand a leading `<digits> <dir>. <rest>`
directional. The replacements are applied in exactly the source order. -/
def standardize_address (street_address : String) : String :=
  let s := pyUpper street_address.toList
  let s := replaceL " BLK ".toList " ".toList s
  let s := replaceL " BLOCK ".toList " ".toList s
  let s := replaceL "JONES FALLS".toList "I-83".toList s
  let s := replaceL "JONES FALLS EXPWY".toList "I-83".toList s
  let s := replaceL "JONES FALLS EXPRESSWAY".toList "I-83".toList s
  let s := replaceL " HW".toList " HWY".toList s
  let s := expandDir 'N' "NORTH".toList s
  let s := expandDir 'S' "SOUTH".toList s
  let s := expandDir 'E' "EAST".toList s
  let s := expandDir 'W' "WEST".toList s
  s.asString

/-! ## Data model -/

/-- Embedding of the normalized `GeocodeResult` record built by
`get_geocode_result`.  That function populates every key, so the record is
total; Python's falsy values (`0.0`, `''`) stand in for both an explicitly
stored default and a missing key, exactly as the code's `.get(k, default)`
and truthiness tests treat them. -/
structure GeocodeResult where
  latitude : ℚ
  longitude : ℚ
  formatted_address : String
  accuracy : ℚ
  accuracy_type : String
  source : String
  number : String
  predirectional : String
  street : String
  suffix : String
  formatted_street : String
  city : String
  county : String
  state : String
  zip : String
  country : String
  census_tract : String
deriving DecidableEq

/-- The two in-memory caches (`self.cached_geo`, `self.cached_geo_rev`),
embedded as lookup functions (Python dict: key ↦ entry or absent).  A stored
entry is a nonempty dict, so the code's truthiness test on `dict.get(key)`
is exactly `isSome` here. -/
structure Caches where
  cached_geo : String → Option GeocodeResult
  cached_geo_rev : ℚ × ℚ → Option GeocodeResult

/-- `round(x, 4)`: round to 4 decimal places.  (Python rounds ties to even;
on the binary floats the program actually handles, exact decimal ties do not
occur, so Mathlib's `round` is a faithful embedding.) -/
def round4 (q : ℚ) : ℚ := (round (q * 10000) : ℤ) / 10000

/-- The overwrite guard used for every cache key in `update_cached_geo`:
`not cache.get(k) or cache[k].get('accuracy', 0.0) < result_accuracy`. -/
def shouldWrite (old : Option GeocodeResult) (acc : ℚ) : Bool :=
  match old with
  | none => true
  | some o => decide (o.accuracy < acc)

/-- One guarded cache write: store `r` at key `k` iff the slot is empty or
strictly less accurate. -/
def gInsert {κ : Type} [DecidableEq κ] (m : κ → Option GeocodeResult) (k : κ)
    (r : GeocodeResult) : κ → Option GeocodeResult :=
  if shouldWrite (m k) r.accuracy then (fun x => if x = k then some r else m x) else m

/-- The forward-cache part of `update_cached_geo`: the guarded write under
the result's formatted address always happens; the write under the (truthy)
`forward_lookup` string happens next and compares against the cache as
already updated, exactly as the sequential Python code does. -/
def mergedGeo (c : Caches) (r : GeocodeResult) (forward_lookup : Option String) :
    String → Option GeocodeResult :=
  let geo1 := gInsert c.cached_geo r.formatted_address r
  match forward_lookup with
  | some fl => if fl ≠ "" then gInsert geo1 fl r else geo1
  | none => geo1

/-- The reverse-cache part of `update_cached_geo`: a guarded write under the
result's own rounded coordinates when both are truthy (nonzero), then one
under the rounded `rev_lookup` pair when supplied. -/
def mergedRev (c : Caches) (r : GeocodeResult) (rev_lookup : Option (ℚ × ℚ)) :
    ℚ × ℚ → Option GeocodeResult :=
  let rev1 := if r.latitude ≠ 0 ∧ r.longitude ≠ 0 then
      gInsert c.cached_geo_rev (round4 r.latitude, round4 r.longitude) r
    else c.cached_geo_rev
  match rev_lookup with
  | some rl => gInsert rev1 (round4 rl.1, round4 rl.2) r
  | none => rev1

/-- Embedding of `Geocoder.update_cached_geo`.  The `assert
geocode_result.get('accuracy')` runs before any write; a falsy accuracy
(`0.0` or a missing key, which this model folds into `0`) raises
`AssertionError`, embedded as `Except.error ()`, and no cache is touched. -/
def update_cached_geo (c : Caches) (r : GeocodeResult) (forward_lookup : Option String)
    (rev_lookup : Option (ℚ × ℚ)) : Except Unit Caches :=
  if r.accuracy = 0 then Except.error ()
  else Except.ok ⟨mergedGeo c r forward_lookup, mergedRev c r rev_lookup⟩

/-! ## Cache merge lemmas (claim C4 infrastructure) -/

/-- `m'` is reachable from `m` by guarded writes of the single result `r`:
each key either kept its old entry or now holds `r`, and in the latter case
the guard held against the original entry. -/
def CacheStep {κ : Type} (m m' : κ → Option GeocodeResult) (r : GeocodeResult) : Prop :=
  ∀ x, m' x = m x ∨ (m' x = some r ∧ shouldWrite (m x) r.accuracy = true)

/-! ## Raw provider records and the result normalizer -/

/-- The exceptions the embedded code can raise. -/
inductive GeoErr where
  | apiFatal        -- `APIFatalError`
  | runtimeError    -- `RuntimeError` (provider-reported or unexpected response)
  | jsonDecodeError -- `json.JSONDecodeError`
  | assertionError  -- `AssertionError` from `update_cached_geo`
  | keyError        -- `KeyError` from a direct `dict[...]` index
  | typeError       -- `TypeError`, e.g. from `round()` on a non-numeric value
deriving DecidableEq

/-- Raw `address_components` dict: every key may be absent. -/
structure GeocodioAddressComponents where
  number : Option String
  predirectional : Option String
  street : Option String
  suffix : Option String
  formatted_street : Option String
  city : Option String
  county : Option String
  state : Option String
  zip : Option String
  country : Option String
deriving DecidableEq

/-- Python truthiness of the `address_components` dict: nonempty, i.e. at
least one of its (schema) keys is present. -/
def addrTruthy (a : GeocodioAddressComponents) : Bool :=
  a.number.isSome || a.predirectional.isSome || a.street.isSome || a.suffix.isSome ||
  a.formatted_street.isSome || a.city.isSome || a.county.isSome || a.state.isSome ||
  a.zip.isSome || a.country.isSome

/-- Raw `location` dict. -/
structure GeocodioCoordinates where
  lat : Option ℚ
  lng : Option ℚ
deriving DecidableEq

def coordsTruthy (c : GeocodioCoordinates) : Bool := c.lat.isSome || c.lng.isSome

/-- A census year dict, embedded as an association list (only `tract_code`'s
value is ever read; the other entries only contribute to dict truthiness). -/
abbrev CensusYearDict := List (String × String)

/-- The `fields` dict; its only schema key is `census`, whose value maps a
dynamic year key to a year dict in JSON (hence Python 3.7+ insertion) order. -/
structure GeocodioCensusField where
  census : Option (List (String × CensusYearDict))
deriving DecidableEq

/-- Truthiness of the `fields` dict (nonempty iff its one schema key is
present). -/
def fieldsTruthy (f : GeocodioCensusField) : Bool := f.census.isSome

/-- Raw provider location record (one element of the response's `results`). -/
structure GeocodioLocation where
  address_components : Option GeocodioAddressComponents
  formatted_address : Option String
  location : Option GeocodioCoordinates
  accuracy : Option ℚ
  accuracy_type : Option String
  source : Option String
  fields : Option GeocodioCensusField
deriving DecidableEq

/-- The defaults-then-top-level-fields part of `get_geocode_result`: every
output key is initialised, the top-level scalars coming from `.get` with
empty/zero defaults. -/
def baseResult (loc : GeocodioLocation) : GeocodeResult :=
  { latitude := 0
    longitude := 0
    formatted_address := loc.formatted_address.getD ""
    accuracy := loc.accuracy.getD 0
    accuracy_type := loc.accuracy_type.getD ""
    source := loc.source.getD ""
    number := ""
    predirectional := ""
    street := ""
    suffix := ""
    formatted_street := ""
    city := ""
    county := ""
    state := ""
    zip := ""
    country := ""
    census_tract := "" }

/-- The `address_components` block of `get_geocode_result`: the five optional
keys go through `.get(k, '')`, but `city`, `county`, `state`, `zip` and
`country` are indexed directly (`addr_dict['city']` …) and raise `KeyError`
when absent.  (The county warning is log-only and has no effect.) -/
def applyAddr (r : GeocodeResult) (loc : GeocodioLocation) : Except GeoErr GeocodeResult :=
  match loc.address_components with
  | none => Except.ok r
  | some ad =>
    if addrTruthy ad then
      match ad.city, ad.county, ad.state, ad.zip, ad.country with
      | some city, some county, some state, some zipc, some country =>
        Except.ok { r with
          number := ad.number.getD ""
          predirectional := ad.predirectional.getD ""
          street := ad.street.getD ""
          suffix := ad.suffix.getD ""
          formatted_street := ad.formatted_street.getD ""
          city := city, county := county, state := state, zip := zipc, country := country }
      | _, _, _, _, _ => Except.error GeoErr.keyError
    else Except.ok r

/-- The `location` block: `loc_dict['lat']` / `loc_dict['lng']` are direct
indexes, raising `KeyError` when the (truthy) dict lacks them. -/
def applyLocation (r : GeocodeResult) (loc : GeocodioLocation) : Except GeoErr GeocodeResult :=
  match loc.location with
  | none => Except.ok r
  | some co =>
    if coordsTruthy co then
      match co.lat, co.lng with
      | some la, some ln => Except.ok { r with latitude := la, longitude := ln }
      | _, _ => Except.error GeoErr.keyError
    else Except.ok r

/-- The census block: take the first year key, and if its year dict is truthy
index `['tract_code']` directly (raising `KeyError` when absent). -/
def applyCensus (r : GeocodeResult) (loc : GeocodioLocation) : Except GeoErr GeocodeResult :=
  match loc.fields with
  | none => Except.ok r
  | some f =>
    if fieldsTruthy f then
      match f.census with
      | none => Except.ok r
      | some cd =>
        match cd with
        | [] => Except.ok r
        | (y, _) :: _ =>
          match cd.lookup y with
          | none => Except.ok r
          | some yd =>
            if yd ≠ [] then
              match yd.lookup "tract_code" with
              | some t => Except.ok { r with census_tract := t }
              | none => Except.error GeoErr.keyError
            else Except.ok r
    else Except.ok r

/-- Embedding of the static method `Geocoder.get_geocode_result`: defaults,
then the three conditional blocks in source order.  A raised `KeyError`
becomes `Except.error`. -/
def get_geocode_result (loc : GeocodioLocation) : Except GeoErr GeocodeResult :=
  (applyAddr (baseResult loc) loc).bind fun r =>
    (applyLocation r loc).bind fun r' => applyCensus r' loc

/-! ## Provider call: `error_check` classification and the two retry layers -/

/-- Decoded JSON body of a provider response.  `error_check` only probes
`results` / `result` for presence (`is not None`) and `error` for truthiness,
so `result`'s value is irrelevant and embedded as `Unit`. -/
structure JsonBody where
  results : Option (List GeocodioLocation)
  result : Option Unit
  error : Option String
deriving DecidableEq

/-- One raw transport response: either `.json()` raises
`json.JSONDecodeError`, or it yields a decoded body. -/
inductive ProviderResp where
  | jsonFail
  | body (b : JsonBody)
deriving DecidableEq

/-- The credential-level failure signatures enumerated in `error_check`. -/
def isCredErr (e : String) : Bool :=
  startsWithL "Please add a payment method.".toList e.toList ||
  startsWithL "Invalid API key".toList e.toList ||
  startsWithL "This is just a demo account".toList e.toList

/-- Outcome of the body classification in `error_check` (after the
credential-index precondition has passed and the network call was made). -/
inductive Classified where
  | okC (b : JsonBody)  -- valid response, returned to the caller
  | credRetryC          -- credential-level error: index += 1, `APIRetryError`
  | runtimeErrC         -- any other error message, or unexpected body: `RuntimeError`
  | jsonErrC            -- `.json()` raised `json.JSONDecodeError`
deriving DecidableEq

/-- The classification performed by `error_check` on one response. -/
def classify : ProviderResp → Classified
  | ProviderResp.jsonFail => Classified.jsonErrC
  | ProviderResp.body b =>
    if b.results.isSome || b.result.isSome then Classified.okC b
    else match b.error with
      | some e =>
        if e ≠ "" then
          (if isCredErr e then Classified.credRetryC else Classified.runtimeErrC)
        else Classified.runtimeErrC
      | none => Classified.runtimeErrC

/-- Result of the inner retry layer (`APIRetryError` never escapes it). -/
inductive InnerResult where
  | ok (b : JsonBody)
  | fatal        -- `APIFatalError`
  | runtimeErr   -- `RuntimeError`
  | jsonErr      -- `json.JSONDecodeError`
deriving DecidableEq

structure InnerOut where
  result : InnerResult
  finalIdx : Nat
  calls : Nat      -- number of HTTP GETs issued
deriving DecidableEq

/-- Fuelled worker for the inner retry layer.  The transport is abstracted as
`provider : api-key → response`; each iteration re-checks the credential
precondition (`index ≥ len(list)` ⇒ `APIFatalError` with no network call),
issues one GET otherwise, and on a credential-level error advances the index
and retries (tenacity's `retry(APIRetryError)` has no stop, but every retry
increments the index, so fuel `len + 1 - idx` suffices; `innerLoop`
instantiates it that way, making the `0` case unreachable). -/
def innerLoopF (apiList : List String) (provider : String → ProviderResp) :
    Nat → Nat → InnerOut
  | 0, idx => ⟨InnerResult.fatal, idx, 0⟩
  | fuel + 1, idx =>
    if apiList.length ≤ idx then ⟨InnerResult.fatal, idx, 0⟩
    else
      match classify (provider (apiList.getD idx "")) with
      | Classified.okC b => ⟨InnerResult.ok b, idx, 1⟩
      | Classified.credRetryC =>
        let rest := innerLoopF apiList provider fuel (idx + 1)
        ⟨rest.result, rest.finalIdx, rest.calls + 1⟩
      | Classified.runtimeErrC => ⟨InnerResult.runtimeErr, idx, 1⟩
      | Classified.jsonErrC => ⟨InnerResult.jsonErr, idx, 1⟩

/-- The inner retry layer: `@retry(retry_if_exception_type(APIRetryError))`
around the `error_check`-wrapped call. -/
def innerLoop (apiList : List String) (provider : String → ProviderResp) (idx : Nat) :
    InnerOut :=
  innerLoopF apiList provider (apiList.length + 1 - idx) idx

/-- What the whole provider call surfaces to `geocode`/`reverse_geocode`. -/
inductive FetchResult where
  | ok (b : JsonBody)
  | fatal
  | runtimeErr
  | jsonErr
deriving DecidableEq

structure FetchOut where
  result : FetchResult
  finalIdx : Nat
  attempts : Nat   -- attempts made at the outer retry layer
  calls : Nat      -- total HTTP GETs issued
deriving DecidableEq

/-- The outer retry layer:
`@retry(retry=RuntimeError|json.JSONDecodeError, stop=stop_after_attempt(5),
reraise=True)`.  Each outer attempt runs the full inner layer; retryable
failures are re-attempted while fuel remains and the final exception is
re-raised; `APIFatalError` and success end the loop at once. -/
def outerLoop (apiList : List String) (provider : String → ProviderResp) (idx : Nat) :
    Nat → FetchOut
  | 0 => ⟨FetchResult.runtimeErr, idx, 0, 0⟩
  | n + 1 =>
    let inner := innerLoop apiList provider idx
    match inner.result with
    | InnerResult.ok b => ⟨FetchResult.ok b, inner.finalIdx, 1, inner.calls⟩
    | InnerResult.fatal => ⟨FetchResult.fatal, inner.finalIdx, 1, inner.calls⟩
    | InnerResult.runtimeErr =>
      if n = 0 then ⟨FetchResult.runtimeErr, inner.finalIdx, 1, inner.calls⟩
      else
        let rest := outerLoop apiList provider inner.finalIdx n
        ⟨rest.result, rest.finalIdx, rest.attempts + 1, inner.calls + rest.calls⟩
    | InnerResult.jsonErr =>
      if n = 0 then ⟨FetchResult.jsonErr, inner.finalIdx, 1, inner.calls⟩
      else
        let rest := outerLoop apiList provider inner.finalIdx n
        ⟨rest.result, rest.finalIdx, rest.attempts + 1, inner.calls + rest.calls⟩

/-- The full `_geocode` / `_reverse_geocode` call pipeline (both share the
decorator stack; they differ only in the HTTP query, which the abstract
transport subsumes): outer layer capped at 5 attempts. -/
def providerFetch (apiList : List String) (provider : String → ProviderResp) (idx : Nat) :
    FetchOut :=
  outerLoop apiList provider idx 5

/-! ## Public operations -/

/-- The mutable state of a `Geocoder` instance. -/
structure GeoState where
  apiList : List String
  apiIndex : Nat
  caches : Caches

/-- The per-candidate loop body shared by `geocode` and `reverse_geocode`:
normalize each raw location (a `KeyError` propagates) and merge it into the
caches (an `AssertionError` propagates); earlier candidates' writes are kept
when a later one raises. -/
def processLocs (fl : Option String) (rl : Option (ℚ × ℚ)) :
    Caches → List GeocodioLocation → Caches × Option GeoErr
  | c, [] => (c, none)
  | c, loc :: rest =>
    match get_geocode_result loc with
    | Except.error e => (c, some e)
    | Except.ok ret =>
      match update_cached_geo c ret fl rl with
      | Except.error _ => (c, some GeoErr.assertionError)
      | Except.ok c' => processLocs fl rl c' rest

/-- Embedding of `Geocoder.geocode`: normalize the address, return a cache
hit without touching the network, otherwise fetch, merge every candidate
under the normalized key, and answer from the forward cache.  The returned
triple is (outcome, final instance state, number of HTTP GETs issued). -/
def geocode (g : GeoState) (provider : String → ProviderResp) (street_address : String) :
    Except GeoErr (Option GeocodeResult) × GeoState × Nat :=
  let std := standardize_address street_address
  match g.caches.cached_geo std with
  | some r => (Except.ok (some r), g, 0)
  | none =>
    let f := providerFetch g.apiList provider g.apiIndex
    let g1 : GeoState := { g with apiIndex := f.finalIdx }
    match f.result with
    | FetchResult.fatal => (Except.error GeoErr.apiFatal, g1, f.calls)
    | FetchResult.runtimeErr => (Except.error GeoErr.runtimeError, g1, f.calls)
    | FetchResult.jsonErr => (Except.error GeoErr.jsonDecodeError, g1, f.calls)
    | FetchResult.ok b =>
      let pr := processLocs (some std) none g1.caches (b.results.getD [])
      let g2 : GeoState := { g1 with caches := pr.1 }
      match pr.2 with
      | some e => (Except.error e, g2, f.calls)
      | none => (Except.ok (pr.1.cached_geo std), g2, f.calls)

/-- A Python value handed to `reverse_geocode` as a coordinate argument:
`None`, a number (int/float), or a non-numeric object (carried here as a
string, the shape of a typical bad input).  The code inspects such a value
only twice — the `is None` identity test and the `round(…, 4)` call, which
raises `TypeError` on a non-numeric object — so this three-way split is
exactly the distinction the code can observe. -/
inductive PyCoord where
  | none
  | num (q : ℚ)
  | obj (s : String)
deriving DecidableEq

/-- Embedding of `Geocoder.reverse_geocode`: an absent latitude or longitude
(`lat is None or long is None`, the code's only input validation) returns
`None` with nothing touched; a present non-numeric coordinate reaches
`round(lat, 4)` / `round(long, 4)` and raises `TypeError`, also before any
cache access or network call; otherwise round to 4 decimals, serve a reverse
cache hit, or fetch and merge each candidate under the unrounded requested
pair (which `update_cached_geo` rounds again). -/
def reverse_geocode (g : GeoState) (provider : String → ProviderResp)
    (lat long : PyCoord) : Except GeoErr (Option GeocodeResult) × GeoState × Nat :=
  match lat, long with
  | PyCoord.none, _ => (Except.ok none, g, 0)
  | _, PyCoord.none => (Except.ok none, g, 0)
  | PyCoord.num la, PyCoord.num lo =>
    let key := (round4 la, round4 lo)
    match g.caches.cached_geo_rev key with
    | some r => (Except.ok (some r), g, 0)
    | none =>
      let f := providerFetch g.apiList provider g.apiIndex
      let g1 : GeoState := { g with apiIndex := f.finalIdx }
      match f.result with
      | FetchResult.fatal => (Except.error GeoErr.apiFatal, g1, f.calls)
      | FetchResult.runtimeErr => (Except.error GeoErr.runtimeError, g1, f.calls)
      | FetchResult.jsonErr => (Except.error GeoErr.jsonDecodeError, g1, f.calls)
      | FetchResult.ok b =>
        let pr := processLocs none (some (la, lo)) g1.caches (b.results.getD [])
        let g2 : GeoState := { g1 with caches := pr.1 }
        match pr.2 with
        | some e => (Except.error e, g2, f.calls)
        | none => (Except.ok (pr.1.cached_geo_rev key), g2, f.calls)
  | _, _ => (Except.error GeoErr.typeError, g, 0)

/-- The `q` query parameter `_reverse_geocode` actually builds:
`'{},{}'.format({lat}, {long})` formats two one-element Python sets, so each
rendered coordinate is wrapped in literal braces.  The embedding takes the
rendered coordinate strings as inputs. -/
def reverseQueryQ (latRepr longRepr : String) : String :=
  "\x7b" ++ latRepr ++ "\x7d" ++ "," ++ "\x7b" ++ longRepr ++ "\x7d"

/-- Modelled from the spec (provider wire contract): the `q` parameter for a
reverse lookup is the latitude and longitude joined by a comma. -/
def reverseQueryQSpec (latRepr longRepr : String) : String :=
  latRepr ++ "," ++ longRepr

/-! ## Concrete fixtures (transport doubles and states used by the
witnesses and counterexamples) -/

def emptyCaches : Caches := ⟨fun _ => none, fun _ => none⟩

/-- A fully populated cached result with accuracy 1. -/
def rCached : GeocodeResult :=
  ⟨0, 0, "123 Main St", 1, "rooftop", "Statewide", "", "", "", "", "", "", "", "", "", "", ""⟩

/-- Forward cache pre-seeded under the normalized key `123 MAIN ST`. -/
def cachesHit : Caches :=
  ⟨fun s => if s = "123 MAIN ST" then some rCached else none, fun _ => none⟩

def gHit : GeoState := ⟨["KEY1"], 0, cachesHit⟩

/-- A transport double that must never be reached (any use raises). -/
def provNever : String → ProviderResp := fun _ => ProviderResp.jsonFail

/-- Existing entry with accuracy 0.5 under the formatted address used by the
merge witness. -/
def rHalf : GeocodeResult :=
  ⟨0, 0, "1309 N Charles St, Baltimore, MD 21201", mkRat 1 2, "range", "Statewide",
   "", "", "", "", "", "", "", "", "", "", ""⟩

/-- Incoming result with accuracy 0.51 for the same formatted address. -/
def rNew51 : GeocodeResult :=
  ⟨0, 0, "1309 N Charles St, Baltimore, MD 21201", mkRat 51 100, "rooftop", "Statewide",
   "", "", "", "", "", "", "", "", "", "", ""⟩

def c4start : Caches :=
  ⟨fun s => if s = "1309 N Charles St, Baltimore, MD 21201" then some rHalf else none,
   fun _ => none⟩

/-- The caches produced by merging `rNew51` into `c4start`. -/
def c4res : Caches := ⟨mergedGeo c4start rNew51 none, mergedRev c4start rNew51 none⟩

/-- The raw location every field of which is absent; it normalizes to a
result with accuracy `0.0`. -/
def locZero : GeocodioLocation := ⟨none, none, none, none, none, none, none⟩

def retZero : GeocodeResult := baseResult locZero

/-- Transport double whose successful response contains the single
zero-accuracy candidate `locZero`. -/
def provZero : String → ProviderResp :=
  fun _ => ProviderResp.body ⟨some [locZero], none, none⟩

def gEmpty : GeoState := ⟨["KEY1"], 0, emptyCaches⟩

/-- A provider error body whose message matches no credential-level
signature. -/
def errBody : JsonBody := ⟨none, none, some "Could not geocode address"⟩

def provRuntime : String → ProviderResp := fun _ => ProviderResp.body errBody

/-- A credential-level rejection body (payment-method signature). -/
def credBody : JsonBody :=
  ⟨none, none, some "Please add a payment method. Then you can continue geocoding."⟩

def provCred : String → ProviderResp := fun _ => ProviderResp.body credBody

/-- Geocoder constructed with the single credential `BAD`. -/
def gBad : GeoState := ⟨["BAD"], 0, emptyCaches⟩

/-- A successful raw candidate (accuracy 1, no nested dicts needed). -/
def locGood : GeocodioLocation :=
  ⟨none, some "123 Main St", none, some 1, some "rooftop", some "Statewide", none⟩

def retGood : GeocodeResult := baseResult locGood

/-- Transport double that rejects the key `BAD` with the payment-method
error and answers any other key with one good candidate. -/
def provRotate : String → ProviderResp :=
  fun k => if k = "BAD" then ProviderResp.body credBody
           else ProviderResp.body ⟨some [locGood], none, none⟩

/-- Geocoder constructed with the credential list `["BAD", "GOOD"]`. -/
def gRotate : GeoState := ⟨["BAD", "GOOD"], 0, emptyCaches⟩

/-- A raw location whose `address_components` dict is present and nonempty
(it has a `number`) but lacks the directly indexed `city` key. -/
def locMissingCity : GeocodioLocation :=
  ⟨some ⟨some "1309", none, none, none, none, none, none, none, none, none⟩,
   some "1309 N Charles St, Baltimore, MD 21201", none, some 1, none, none, none⟩

/-! ## Normalizer sanity checks (mirroring `test_standardize_address`) -/

theorem standardize_address_block_example :
    standardize_address "1000 block n charles st" = "1000 NORTH CHARLES ST" := by decide

theorem standardize_address_plain_example :
    standardize_address "1000 wilkins ave" = "1000 WILKINS AVE" := by decide

/-! ## Cache-merge step lemmas -/

theorem cacheStep_refl {κ : Type} (m : κ → Option GeocodeResult) (r : GeocodeResult) :
    CacheStep m m r := fun _ => Or.inl rfl

theorem cacheStep_gInsert {κ : Type} [DecidableEq κ] (m : κ → Option GeocodeResult)
    (k : κ) (r : GeocodeResult) : CacheStep m (gInsert m k r) r := by
  intro x
  unfold gInsert
  split
  next hw =>
    by_cases hx : x = k
    · subst hx; exact Or.inr ⟨if_pos rfl, hw⟩
    · exact Or.inl (if_neg hx)
  next hw => exact Or.inl rfl

theorem cacheStep_trans {κ : Type} {m m1 m2 : κ → Option GeocodeResult} {r : GeocodeResult}
    (h1 : CacheStep m m1 r) (h2 : CacheStep m1 m2 r) : CacheStep m m2 r := by
  intro x
  rcases h2 x with h | ⟨h, hw⟩
  · rw [h]; exact h1 x
  · rcases h1 x with h' | ⟨h', hw'⟩
    · rw [h'] at hw; exact Or.inr ⟨h, hw⟩
    · exact Or.inr ⟨h, hw'⟩

theorem cacheStep_mono {κ : Type} {m m' : κ → Option GeocodeResult} {r : GeocodeResult}
    (h : CacheStep m m' r) :
    ∀ x old, m x = some old → ∃ nw, m' x = some nw ∧ old.accuracy ≤ nw.accuracy := by
  intro x old hx
  rcases h x with h' | ⟨h', hw⟩
  · exact ⟨old, by rw [h', hx], le_refl _⟩
  · refine ⟨r, h', ?_⟩
    rw [hx] at hw
    simp only [shouldWrite, decide_eq_true_eq] at hw
    exact le_of_lt hw

theorem cacheStep_changed {κ : Type} {m m' : κ → Option GeocodeResult} {r : GeocodeResult}
    (h : CacheStep m m' r) :
    ∀ x, m' x ≠ m x →
      m' x = some r ∧ (m x = none ∨ ∃ old, m x = some old ∧ old.accuracy < r.accuracy) := by
  intro x hne
  rcases h x with h' | ⟨h', hw⟩
  · exact absurd h' hne
  · refine ⟨h', ?_⟩
    cases hmx : m x with
    | none => exact Or.inl rfl
    | some old =>
      rw [hmx] at hw
      simp only [shouldWrite, decide_eq_true_eq] at hw
      exact Or.inr ⟨old, rfl, hw⟩

theorem gInsert_keeps {κ : Type} [DecidableEq κ] {m : κ → Option GeocodeResult}
    {r : GeocodeResult} {a : κ} (h : m a = some r) (k : κ) : gInsert m k r a = some r := by
  unfold gInsert
  split
  · show (if a = k then some r else m a) = some r
    by_cases hx : a = k
    · rw [if_pos hx]
    · rw [if_neg hx]; exact h
  · exact h

theorem cacheStep_guard {κ : Type} [DecidableEq κ] (m : κ → Option GeocodeResult)
    (P : Prop) [Decidable P] (k : κ) (r : GeocodeResult) :
    CacheStep m (if P then gInsert m k r else m) r := by
  split
  · exact cacheStep_gInsert m k r
  · exact cacheStep_refl m r

theorem mergedGeo_step (c : Caches) (r : GeocodeResult) (fl : Option String) :
    CacheStep c.cached_geo (mergedGeo c r fl) r := by
  cases fl with
  | none => exact cacheStep_gInsert _ _ _
  | some s => exact cacheStep_trans (cacheStep_gInsert _ _ _) (cacheStep_guard _ _ _ _)

theorem mergedRev_step (c : Caches) (r : GeocodeResult) (rl : Option (ℚ × ℚ)) :
    CacheStep c.cached_geo_rev (mergedRev c r rl) r := by
  cases rl with
  | none => exact cacheStep_guard _ _ _ _
  | some p => exact cacheStep_trans (cacheStep_guard _ _ _ _) (cacheStep_gInsert _ _ _)

/-! ## Result-normalizer totality lemmas (claim C8 infrastructure) -/

theorem applyAddr_ok (r : GeocodeResult) (loc : GeocodioLocation)
    (h : ∀ ad, loc.address_components = some ad → addrTruthy ad = true →
      ad.city.isSome = true ∧ ad.county.isSome = true ∧ ad.state.isSome = true ∧
      ad.zip.isSome = true ∧ ad.country.isSome = true) :
    ∃ r2, applyAddr r loc = Except.ok r2 := by
  cases hA : loc.address_components with
  | none => exact ⟨r, by simp [applyAddr, hA]⟩
  | some ad =>
    by_cases hT : addrTruthy ad = true
    · obtain ⟨h1, h2, h3, h4, h5⟩ := h ad hA hT
      obtain ⟨city, hc⟩ := Option.isSome_iff_exists.mp h1
      obtain ⟨county, hco⟩ := Option.isSome_iff_exists.mp h2
      obtain ⟨st, hs⟩ := Option.isSome_iff_exists.mp h3
      obtain ⟨z, hz⟩ := Option.isSome_iff_exists.mp h4
      obtain ⟨cy, hcy⟩ := Option.isSome_iff_exists.mp h5
      refine ⟨{ r with
        number := ad.number.getD ""
        predirectional := ad.predirectional.getD ""
        street := ad.street.getD ""
        suffix := ad.suffix.getD ""
        formatted_street := ad.formatted_street.getD ""
        city := city, county := county, state := st, zip := z, country := cy }, ?_⟩
      simp [applyAddr, hA, hT, hc, hco, hs, hz, hcy]
    · exact ⟨r, by simp [applyAddr, hA, hT]⟩

theorem applyLocation_ok (r : GeocodeResult) (loc : GeocodioLocation)
    (h : ∀ co, loc.location = some co → coordsTruthy co = true →
      co.lat.isSome = true ∧ co.lng.isSome = true) :
    ∃ r2, applyLocation r loc = Except.ok r2 := by
  cases hL : loc.location with
  | none => exact ⟨r, by simp [applyLocation, hL]⟩
  | some co =>
    by_cases hT : coordsTruthy co = true
    · obtain ⟨h1, h2⟩ := h co hL hT
      obtain ⟨la, hla⟩ := Option.isSome_iff_exists.mp h1
      obtain ⟨ln, hln⟩ := Option.isSome_iff_exists.mp h2
      exact ⟨{ r with latitude := la, longitude := ln },
        by simp [applyLocation, hL, hT, hla, hln]⟩
    · exact ⟨r, by simp [applyLocation, hL, hT]⟩

theorem applyCensus_ok (r : GeocodeResult) (loc : GeocodioLocation)
    (h : ∀ f cd y yd0 rest yd, loc.fields = some f → f.census = some cd →
      cd = (y, yd0) :: rest → cd.lookup y = some yd → yd ≠ [] →
      (yd.lookup "tract_code").isSome = true) :
    ∃ r2, applyCensus r loc = Except.ok r2 := by
  cases hF : loc.fields with
  | none => exact ⟨r, by simp [applyCensus, hF]⟩
  | some f =>
    by_cases hT : fieldsTruthy f = true
    · cases hC : f.census with
      | none => exact ⟨r, by simp [applyCensus, hF, hT, hC]⟩
      | some cd =>
        cases cd with
        | nil => exact ⟨r, by simp [applyCensus, hF, hT, hC]⟩
        | cons hd tl =>
          obtain ⟨y, yd0⟩ := hd
          cases hLk : ((y, yd0) :: tl).lookup y with
          | none => exact ⟨r, by simp [applyCensus, hF, hT, hC, hLk]⟩
          | some yd =>
            by_cases hNe : yd = []
            · exact ⟨r, by simp [applyCensus, hF, hT, hC, hLk, hNe]⟩
            · obtain ⟨t, ht⟩ := Option.isSome_iff_exists.mp
                (h f ((y, yd0) :: tl) y yd0 tl yd hF hC rfl hLk hNe)
              exact ⟨{ r with census_tract := t },
                by simp [applyCensus, hF, hT, hC, hLk, hNe, ht]⟩
    · exact ⟨r, by simp [applyCensus, hF, hT]⟩

/-! ## Retry-machinery lemmas -/

/-- One unfolding step of the inner retry worker. -/
theorem innerLoopF_succ (apiList : List String) (provider : String → ProviderResp)
    (fuel idx : Nat) :
    innerLoopF apiList provider (fuel + 1) idx =
      if apiList.length ≤ idx then ⟨InnerResult.fatal, idx, 0⟩
      else
        match classify (provider (apiList.getD idx "")) with
        | Classified.okC b => ⟨InnerResult.ok b, idx, 1⟩
        | Classified.credRetryC =>
          ⟨(innerLoopF apiList provider fuel (idx + 1)).result,
           (innerLoopF apiList provider fuel (idx + 1)).finalIdx,
           (innerLoopF apiList provider fuel (idx + 1)).calls + 1⟩
        | Classified.runtimeErrC => ⟨InnerResult.runtimeErr, idx, 1⟩
        | Classified.jsonErrC => ⟨InnerResult.jsonErr, idx, 1⟩ := rfl

/-- A response body that carries a truthy non-credential error message is
classified as the non-retryable-at-this-layer `RuntimeError`. -/
theorem classify_runtimeErr {b : JsonBody} {e : String}
    (hres : b.results = none) (hresu : b.result = none) (herr : b.error = some e)
    (he : e ≠ "") (hcred : isCredErr e = false) :
    classify (ProviderResp.body b) = Classified.runtimeErrC := by
  simp [classify, hres, hresu, herr, he, hcred]

/-- A response body carrying a credential-level error message is classified
as the retryable `APIRetryError` condition. -/
theorem classify_credRetry {b : JsonBody} {e : String}
    (hres : b.results = none) (hresu : b.result = none) (herr : b.error = some e)
    (hcred : isCredErr e = true) :
    classify (ProviderResp.body b) = Classified.credRetryC := by
  have he : e ≠ "" := by
    intro h
    rw [h] at hcred
    have hf : isCredErr "" = false := by decide
    rw [hf] at hcred
    exact Bool.noConfusion hcred
  simp [classify, hres, hresu, herr, he, hcred]

/-- When the current credential draws a non-credential provider error, the
inner layer makes exactly one network call, surfaces the `RuntimeError`, and
leaves the index unchanged. -/
theorem innerLoop_runtimeErr {apiList : List String} {provider : String → ProviderResp}
    {idx : Nat} (hidx : idx < apiList.length)
    (hcl : classify (provider (apiList.getD idx "")) = Classified.runtimeErrC) :
    innerLoop apiList provider idx = ⟨InnerResult.runtimeErr, idx, 1⟩ := by
  have hk : apiList.length + 1 - idx = (apiList.length - idx) + 1 := by omega
  rw [innerLoop, hk, innerLoopF_succ, if_neg (by omega : ¬ apiList.length ≤ idx), hcl]

/-- With the credential precondition already violated, the inner layer fails
fatally with zero network calls. -/
theorem innerLoop_exhausted {apiList : List String} {provider : String → ProviderResp}
    {idx : Nat} (hle : apiList.length ≤ idx) :
    innerLoop apiList provider idx = ⟨InnerResult.fatal, idx, 0⟩ := by
  rw [innerLoop]
  cases hk : apiList.length + 1 - idx with
  | zero => rfl
  | succ k => rw [innerLoopF_succ, if_pos hle]

/-- One unfolding step of the outer retry layer. -/
theorem outerLoop_succ (apiList : List String) (provider : String → ProviderResp)
    (idx n : Nat) :
    outerLoop apiList provider idx (n + 1) =
      match (innerLoop apiList provider idx).result with
      | InnerResult.ok b =>
        ⟨FetchResult.ok b, (innerLoop apiList provider idx).finalIdx, 1,
         (innerLoop apiList provider idx).calls⟩
      | InnerResult.fatal =>
        ⟨FetchResult.fatal, (innerLoop apiList provider idx).finalIdx, 1,
         (innerLoop apiList provider idx).calls⟩
      | InnerResult.runtimeErr =>
        if n = 0 then
          ⟨FetchResult.runtimeErr, (innerLoop apiList provider idx).finalIdx, 1,
           (innerLoop apiList provider idx).calls⟩
        else
          ⟨(outerLoop apiList provider (innerLoop apiList provider idx).finalIdx n).result,
           (outerLoop apiList provider (innerLoop apiList provider idx).finalIdx n).finalIdx,
           (outerLoop apiList provider (innerLoop apiList provider idx).finalIdx n).attempts + 1,
           (innerLoop apiList provider idx).calls +
             (outerLoop apiList provider (innerLoop apiList provider idx).finalIdx n).calls⟩
      | InnerResult.jsonErr =>
        if n = 0 then
          ⟨FetchResult.jsonErr, (innerLoop apiList provider idx).finalIdx, 1,
           (innerLoop apiList provider idx).calls⟩
        else
          ⟨(outerLoop apiList provider (innerLoop apiList provider idx).finalIdx n).result,
           (outerLoop apiList provider (innerLoop apiList provider idx).finalIdx n).finalIdx,
           (outerLoop apiList provider (innerLoop apiList provider idx).finalIdx n).attempts + 1,
           (innerLoop apiList provider idx).calls +
             (outerLoop apiList provider (innerLoop apiList provider idx).finalIdx n).calls⟩ :=
  rfl

/-- An `APIFatalError` from the inner layer is not retried by the outer
layer: one outer attempt, immediately surfaced. -/
theorem outerLoop_fatal {apiList : List String} {provider : String → ProviderResp}
    {idx j m : Nat} (hin : innerLoop apiList provider idx = ⟨InnerResult.fatal, j, m⟩)
    (n : Nat) :
    outerLoop apiList provider idx (n + 1) = ⟨FetchResult.fatal, j, 1, m⟩ := by
  simp [outerLoop, hin]

/-- A persistent `RuntimeError` is retried by the outer layer until its fuel
runs out: `n + 1` attempts, `n + 1` network calls, index unchanged, and the
final exception re-raised. -/
theorem outerLoop_runtimeErr_all {apiList : List String} {provider : String → ProviderResp}
    {idx : Nat} (hin : innerLoop apiList provider idx = ⟨InnerResult.runtimeErr, idx, 1⟩) :
    ∀ n, outerLoop apiList provider idx (n + 1) =
      ⟨FetchResult.runtimeErr, idx, n + 1, n + 1⟩ := by
  intro n
  induction n with
  | zero => simp [outerLoop, hin]
  | succ k ih =>
    rw [outerLoop_succ, hin]
    simp [ih, Nat.add_comm]

/-! ## Claim theorems -/

/-- C3 (code bug): the address normalizer is not idempotent.  The
`replace(' HW', ' HWY')` fix-up also matches inside an already complete
`' HWY'`, so a second application appends another `Y`:
`'100 POTEE HW'` normalizes to `'100 POTEE HWY'`, which re-normalizes to
`'100 POTEE HWYY'`, contradicting `normalize(normalize(x)) == normalize(x)`. -/
theorem standardize_address_not_idempotent :
    standardize_address "100 POTEE HW" = "100 POTEE HWY" ∧
    standardize_address "100 POTEE HWY" = "100 POTEE HWYY" ∧
    standardize_address (standardize_address "100 POTEE HW") ≠
      standardize_address "100 POTEE HW" := by
  refine ⟨by decide, by decide, ?_⟩
  decide

/-- C2 (code bug): `_reverse_geocode` builds `q` as
`'{},{}'.format({lat}, {long})` — formatting one-element sets — so the value
sent for rendered coordinates `39.3051` / `-76.6158` is
`"\x7b39.3051\x7d,\x7b-76.6158\x7d"` (each coordinate wrapped in literal
braces), not the `"lat,long"` the wire contract requires. -/
theorem reverse_query_q_malformed :
    reverseQueryQ "39.3051" "-76.6158" = "\x7b39.3051\x7d,\x7b-76.6158\x7d" ∧
    reverseQueryQ "39.3051" "-76.6158" ≠ reverseQueryQSpec "39.3051" "-76.6158" := by
  refine ⟨by decide, ?_⟩
  decide

/-- C5: a forward-cache hit is served without invoking the transport and
without touching any state: when the normalized address is already a key of
the forward cache, `geocode` returns that entry, issues zero network calls,
and returns the instance state (both caches and the credential index)
unchanged. -/
theorem geocode_cache_hit_no_network :
    ∀ (g : GeoState) (provider : String → ProviderResp) (street_address : String),
      (g.caches.cached_geo (standardize_address street_address)).isSome = true →
      geocode g provider street_address =
        (Except.ok (g.caches.cached_geo (standardize_address street_address)), g, 0) := by
  intro g provider street_address h
  cases hc : g.caches.cached_geo (standardize_address street_address) with
  | none => rw [hc] at h; simp at h
  | some r => simp only [geocode, hc]

/-- Witness for C5: with `123 MAIN ST` pre-cached, `geocode '123 Main St'`
is answered from the cache with zero transport calls. -/
theorem geocode_cache_hit_no_network_witness :
    geocode gHit provNever "123 Main St" =
      (Except.ok (gHit.caches.cached_geo (standardize_address "123 Main St")), gHit, 0) :=
  geocode_cache_hit_no_network gHit provNever "123 Main St" (by decide)

/-- C9 counterexample: the only input validation is `lat is None or long is
None`, so a present non-numeric latitude — here the string `"39.3"` — is not
"handled locally by returning not-found": it reaches `round(lat, 4)` and
raises `TypeError` (the state is still untouched and no network call is
made, but the claim's "returns the absent value rather than raising" is
false). -/
theorem reverse_geocode_nonnumeric_raises_counterexample :
    reverse_geocode gHit provNever (PyCoord.obj "39.3") (PyCoord.num (-76)) =
      (Except.error GeoErr.typeError, gHit, 0) ∧
    (Except.error GeoErr.typeError : Except GeoErr (Option GeocodeResult)) ≠
      Except.ok none :=
  ⟨rfl, fun h => Except.noConfusion h⟩

/-- C9 (amended): only an absent (`None`) latitude or longitude is handled
by returning the absent value — no exception, zero network calls, caches and
credential index unchanged; a present non-numeric coordinate (in either or
both positions) instead raises `TypeError` from `round()`, likewise before
any network call or state change. -/
theorem reverse_geocode_none_vs_nonnumeric :
    (∀ (g : GeoState) (provider : String → ProviderResp) (lat long : PyCoord),
        lat = PyCoord.none ∨ long = PyCoord.none →
        reverse_geocode g provider lat long = (Except.ok none, g, 0)) ∧
    (∀ (g : GeoState) (provider : String → ProviderResp) (s : String) (lo : ℚ),
        reverse_geocode g provider (PyCoord.obj s) (PyCoord.num lo) =
          (Except.error GeoErr.typeError, g, 0)) ∧
    (∀ (g : GeoState) (provider : String → ProviderResp) (la : ℚ) (s : String),
        reverse_geocode g provider (PyCoord.num la) (PyCoord.obj s) =
          (Except.error GeoErr.typeError, g, 0)) ∧
    (∀ (g : GeoState) (provider : String → ProviderResp) (s t : String),
        reverse_geocode g provider (PyCoord.obj s) (PyCoord.obj t) =
          (Except.error GeoErr.typeError, g, 0)) := by
  refine ⟨?_, fun g provider s lo => rfl, fun g provider la s => rfl,
    fun g provider s t => rfl⟩
  intro g provider lat long h
  cases lat with
  | none => cases long <;> rfl
  | num la =>
    cases long with
    | none => rfl
    | num lo => simp at h
    | obj t => simp at h
  | obj s =>
    cases long with
    | none => rfl
    | num lo => simp at h
    | obj t => simp at h

/-- Witness for C9 (amended): a `None` latitude yields the absent result and
leaves the state alone. -/
theorem reverse_geocode_none_vs_nonnumeric_witness :
    reverse_geocode gHit provNever PyCoord.none (PyCoord.num 39) =
      (Except.ok none, gHit, 0) :=
  reverse_geocode_none_vs_nonnumeric.1 gHit provNever PyCoord.none (PyCoord.num 39)
    (Or.inl rfl)

/-- C4: the cache merge replaces an entry only when the key is empty or the
existing entry is strictly less accurate; consequently the accuracy stored
at any key (in either cache) never decreases, and a strictly more accurate
result is guaranteed to land under its formatted address.  Ties keep the old
entry: a replaced key requires `old.accuracy < new.accuracy`. -/
theorem update_cached_geo_accuracy_monotone :
    ∀ (c : Caches) (r : GeocodeResult) (fl : Option String) (rl : Option (ℚ × ℚ)) (c' : Caches),
      update_cached_geo c r fl rl = Except.ok c' →
      (∀ k, c'.cached_geo k ≠ c.cached_geo k →
          c'.cached_geo k = some r ∧
          (c.cached_geo k = none ∨
            ∃ old, c.cached_geo k = some old ∧ old.accuracy < r.accuracy)) ∧
      (∀ k, c'.cached_geo_rev k ≠ c.cached_geo_rev k →
          c'.cached_geo_rev k = some r ∧
          (c.cached_geo_rev k = none ∨
            ∃ old, c.cached_geo_rev k = some old ∧ old.accuracy < r.accuracy)) ∧
      (∀ k old, c.cached_geo k = some old →
          ∃ nw, c'.cached_geo k = some nw ∧ old.accuracy ≤ nw.accuracy) ∧
      (∀ k old, c.cached_geo_rev k = some old →
          ∃ nw, c'.cached_geo_rev k = some nw ∧ old.accuracy ≤ nw.accuracy) ∧
      ((c.cached_geo r.formatted_address = none ∨
          ∃ old, c.cached_geo r.formatted_address = some old ∧ old.accuracy < r.accuracy) →
        c'.cached_geo r.formatted_address = some r) := by
  intro c r fl rl c' h
  rw [update_cached_geo] at h
  split at h
  · exact Except.noConfusion h
  · injection h with h
    subst h
    refine ⟨?_, ?_, ?_, ?_, ?_⟩
    · exact fun k hk => cacheStep_changed (mergedGeo_step c r fl) k hk
    · exact fun k hk => cacheStep_changed (mergedRev_step c r rl) k hk
    · exact fun k old hk => cacheStep_mono (mergedGeo_step c r fl) k old hk
    · exact fun k old hk => cacheStep_mono (mergedRev_step c r rl) k old hk
    · intro hcond
      have hw : shouldWrite (c.cached_geo r.formatted_address) r.accuracy = true := by
        rcases hcond with hnone | ⟨old, hold, hlt⟩
        · simp [shouldWrite, hnone]
        · simp [shouldWrite, hold, hlt]
      have h1 : gInsert c.cached_geo r.formatted_address r r.formatted_address = some r := by
        simp [gInsert, hw]
      cases fl with
      | none => exact h1
      | some s =>
        show (if s ≠ "" then gInsert (gInsert c.cached_geo r.formatted_address r) s r
              else gInsert c.cached_geo r.formatted_address r) r.formatted_address = some r
        split
        · exact gInsert_keeps h1 s
        · exact h1

/-- Witness for C4: merging an accuracy-0.51 result over a cached
accuracy-0.5 entry succeeds, and the theorem yields a replacement whose
accuracy is at least the old 0.5. -/
theorem update_cached_geo_accuracy_monotone_witness :
    update_cached_geo c4start rNew51 none none = Except.ok c4res ∧
    ∃ nw, c4res.cached_geo "1309 N Charles St, Baltimore, MD 21201" = some nw ∧
      rHalf.accuracy ≤ nw.accuracy :=
  ⟨rfl,
   (update_cached_geo_accuracy_monotone c4start rNew51 none none c4res rfl).2.2.1
     "1309 N Charles St, Baltimore, MD 21201" rHalf (by simp [c4start])⟩

/-- C10: `update_cached_geo` asserts a truthy accuracy before any write, so a
result whose accuracy is `0.0` (or missing, which defaults to `0.0`) raises
`AssertionError` with both caches untouched; `geocode` and `reverse_geocode`
run the merge unconditionally on every normalized candidate, so the
`AssertionError` propagates out of both for a zero-accuracy candidate. -/
theorem update_cached_geo_zero_accuracy_asserts :
    (∀ (c : Caches) (r : GeocodeResult) (fl : Option String) (rl : Option (ℚ × ℚ)),
        r.accuracy = 0 → update_cached_geo c r fl rl = Except.error ()) ∧
    (geocode gEmpty provZero "123 Main St").1 = Except.error GeoErr.assertionError ∧
    (reverse_geocode gEmpty provZero (PyCoord.num 39) (PyCoord.num (-76))).1 =
      Except.error GeoErr.assertionError := by
  refine ⟨?_, rfl, rfl⟩
  intro c r fl rl h
  simp [update_cached_geo, h]

/-- Witness for C10: the all-defaults normalized result `retZero` has
accuracy `0`, and merging it raises the assertion. -/
theorem update_cached_geo_zero_accuracy_asserts_witness :
    update_cached_geo emptyCaches retZero none none = Except.error () :=
  update_cached_geo_zero_accuracy_asserts.1 emptyCaches retZero none none rfl

/-- C1 counterexample: with one credential and a provider that always
answers with the non-credential error message `Could not geocode address`,
the call does surface a runtime error — but after 5 outer-layer attempts
(the retry policy lists `RuntimeError` as retryable), not after a single
attempt with zero retries as the claim states. -/
theorem provider_error_retried_counterexample :
    (providerFetch ["KEY1"] provRuntime 0).result = FetchResult.runtimeErr ∧
    (providerFetch ["KEY1"] provRuntime 0).attempts = 5 ∧
    (providerFetch ["KEY1"] provRuntime 0).attempts ≠ 1 := by
  refine ⟨by decide, by decide, ?_⟩
  decide

/-- C1 (amended): a provider response with a truthy error message matching
no credential-level signature raises a `RuntimeError` that the outer retry
layer retries up to its 5-attempt cap (4 additional attempts, 5 network
calls) before surfacing it to the caller; the credential index is left
unchanged throughout. -/
theorem provider_error_retried_then_surfaced :
    ∀ (apiList : List String) (provider : String → ProviderResp) (idx : Nat)
      (b : JsonBody) (e : String),
      idx < apiList.length →
      provider (apiList.getD idx "") = ProviderResp.body b →
      b.results = none → b.result = none → b.error = some e → e ≠ "" →
      isCredErr e = false →
      providerFetch apiList provider idx = ⟨FetchResult.runtimeErr, idx, 5, 5⟩ := by
  intro apiList provider idx b e hidx hprov hres hresu herr he hcred
  have hcl : classify (provider (apiList.getD idx "")) = Classified.runtimeErrC := by
    rw [hprov]; exact classify_runtimeErr hres hresu herr he hcred
  exact outerLoop_runtimeErr_all (innerLoop_runtimeErr hidx hcl) 4

/-- Witness for C1 (amended): instantiated with the single credential
`KEY1` and the constant `Could not geocode address` provider. -/
theorem provider_error_retried_then_surfaced_witness :
    providerFetch ["KEY1"] provRuntime 0 = ⟨FetchResult.runtimeErr, 0, 5, 5⟩ :=
  provider_error_retried_then_surfaced ["KEY1"] provRuntime 0 errBody
    "Could not geocode address" (by decide) rfl rfl rfl rfl (by decide) (by decide)

/-- C6: once the credential index reaches the credential-list length, the
provider call fails immediately with `APIFatalError` — one outer attempt and
zero network calls; and concretely, a geocoder holding only the rejected
credential `BAD` surfaces `APIFatalError` from `geocode` after finitely many
steps (one network call, index ending at 1). -/
theorem credential_exhaustion_fatal :
    (∀ (apiList : List String) (provider : String → ProviderResp) (idx : Nat),
        apiList.length ≤ idx →
        providerFetch apiList provider idx = ⟨FetchResult.fatal, idx, 1, 0⟩) ∧
    geocode gBad provCred "123 Main St" =
      (Except.error GeoErr.apiFatal, ⟨["BAD"], 1, emptyCaches⟩, 1) := by
  constructor
  · intro apiList provider idx hle
    exact outerLoop_fatal (innerLoop_exhausted hle) 4
  · rfl

/-- Witness for C6: with the one-element list `["BAD"]` and index already at
1, the call is fatal with zero network calls. -/
theorem credential_exhaustion_fatal_witness :
    providerFetch ["BAD"] provCred 1 = ⟨FetchResult.fatal, 1, 1, 0⟩ :=
  credential_exhaustion_fatal.1 ["BAD"] provCred 1 (by decide)

/-- C7: a credential-level provider error advances the credential index by
exactly one and the request is retried with the next credential (the inner
loop at `idx` delegates to the inner loop at `idx + 1`, adding the one
failed call); concretely, with credentials `["BAD", "GOOD"]` where `BAD`
draws the payment-method rejection, `geocode` succeeds and the index ends
at 1. -/
theorem credential_rotation_advances :
    (∀ (apiList : List String) (provider : String → ProviderResp) (idx : Nat)
        (b : JsonBody) (e : String),
        idx < apiList.length →
        provider (apiList.getD idx "") = ProviderResp.body b →
        b.results = none → b.result = none → b.error = some e →
        isCredErr e = true →
        innerLoop apiList provider idx =
          ⟨(innerLoop apiList provider (idx + 1)).result,
           (innerLoop apiList provider (idx + 1)).finalIdx,
           (innerLoop apiList provider (idx + 1)).calls + 1⟩) ∧
    (geocode gRotate provRotate "123 Main St").1 = Except.ok (some retGood) ∧
    (geocode gRotate provRotate "123 Main St").2.1.apiIndex = 1 := by
  refine ⟨?_, rfl, rfl⟩
  intro apiList provider idx b e hidx hprov hres hresu herr hcred
  have hcl : classify (provider (apiList.getD idx "")) = Classified.credRetryC := by
    rw [hprov]; exact classify_credRetry hres hresu herr hcred
  have h1 : apiList.length + 1 - idx = apiList.length - idx - 1 + 1 + 1 := by omega
  have h2 : apiList.length + 1 - (idx + 1) = apiList.length - idx - 1 + 1 := by omega
  unfold innerLoop
  rw [h1, h2, innerLoopF_succ apiList provider (apiList.length - idx - 1 + 1) idx,
    if_neg (by omega : ¬ apiList.length ≤ idx), hcl]

/-- Witness for C7: instantiated at index 0 of `["BAD", "GOOD"]` with the
payment-method rejection body. -/
theorem credential_rotation_advances_witness :
    innerLoop ["BAD", "GOOD"] provRotate 0 =
      ⟨(innerLoop ["BAD", "GOOD"] provRotate 1).result,
       (innerLoop ["BAD", "GOOD"] provRotate 1).finalIdx,
       (innerLoop ["BAD", "GOOD"] provRotate 1).calls + 1⟩ :=
  credential_rotation_advances.1 ["BAD", "GOOD"] provRotate 0 credBody
    "Please add a payment method. Then you can continue geocoding."
    (by decide) rfl rfl rfl rfl (by decide)

/-- C8 counterexample: `get_geocode_result` is not total on raw location
records.  For a record whose `address_components` is present and nonempty but
lacks the `city` key, the direct index `addr_dict['city']` raises `KeyError`
instead of returning a defaulted result. -/
theorem get_geocode_result_keyerror_counterexample :
    get_geocode_result locMissingCity = Except.error GeoErr.keyError := rfl

/-- C8 (amended): `get_geocode_result` returns a fully populated
`GeocodeResult` — absent optional source fields left at their empty/zero
defaults — for every raw record whose present-and-truthy sub-dicts carry
their directly indexed keys: `address_components` must contain `city`,
`county`, `state`, `zip` and `country`; `location` must contain `lat` and
`lng`; and the selected census year dict, when it is reached, must contain
`tract_code`.  (When one of those keys is missing it raises `KeyError`
instead, per the counterexample.) -/
theorem get_geocode_result_total_on_required_keys :
    ∀ loc : GeocodioLocation,
      (∀ ad, loc.address_components = some ad → addrTruthy ad = true →
        ad.city.isSome = true ∧ ad.county.isSome = true ∧ ad.state.isSome = true ∧
        ad.zip.isSome = true ∧ ad.country.isSome = true) →
      (∀ co, loc.location = some co → coordsTruthy co = true →
        co.lat.isSome = true ∧ co.lng.isSome = true) →
      (∀ f cd y yd0 rest yd, loc.fields = some f → f.census = some cd →
        cd = (y, yd0) :: rest → cd.lookup y = some yd → yd ≠ [] →
        (yd.lookup "tract_code").isSome = true) →
      ∃ r, get_geocode_result loc = Except.ok r := by
  intro loc h1 h2 h3
  obtain ⟨r1, e1⟩ := applyAddr_ok (baseResult loc) loc h1
  obtain ⟨r2, e2⟩ := applyLocation_ok r1 loc h2
  obtain ⟨r3, e3⟩ := applyCensus_ok r2 loc h3
  refine ⟨r3, ?_⟩
  unfold get_geocode_result
  rw [e1]
  show (applyLocation r1 loc).bind (fun r' => applyCensus r' loc) = Except.ok r3
  rw [e2]
  show applyCensus r2 loc = Except.ok r3
  exact e3

/-- Witness for C8 (amended): the all-defaults record `locZero` satisfies
the key requirements vacuously and normalizes successfully. -/
theorem get_geocode_result_total_on_required_keys_witness :
    ∃ r, get_geocode_result locZero = Except.ok r :=
  get_geocode_result_total_on_required_keys locZero
    (fun _ h => nomatch h) (fun _ h => nomatch h)
    (fun _ _ _ _ _ _ h => nomatch h)

end BaltGeocoder
